import Mathlib

/-!
# Shallow embedding of the Cybership resilient carrier-call pipeline

Definitions translated from the TypeScript sources:
  - `src/domain/errors/*` (error taxonomy),
  - `src/infrastructure/retry/retry-policy.ts` (exponential backoff policy),
  - `src/infrastructure/retry/with-retry.ts` (generic retry executor),
  - `src/infrastructure/circuit-breaker/circuit-breaker.ts`,
  - `src/infrastructure/auth/client-credentials-auth-provider.ts`,
  - `src/infrastructure/auth/oauth-client.ts`,
  - `src/integrations/ups/ups-rate-client.ts`,
  - `src/integrations/ups/ups-rate-mapper.ts`,
  - `src/integrations/ups/register-ups-rate-carrier` wiring.

Numbers: JavaScript `number` is embedded as `ℚ` where fractional values occur
(delays, jitter) and as `ℤ`/`ℕ` for timestamps and counters; `Math.random()`
becomes an explicit parameter `rand` with `0 ≤ rand < 1`; `Math.floor` is
`Int.floor`.  Promises are embedded by explicit state passing, and the
single-threaded cooperative scheduler by running each caller's synchronous
prefix atomically, in order.
-/

namespace Cybership

/-- Error codes, `src/domain/errors/error-code.ts` (union of the codes used by
the error classes and the `ErrorCode` enum). -/
inductive ErrorCode where
  | AUTH_FAILED
  | AUTH_TOKEN_EXPIRED
  | AUTH_TOKEN_INVALID
  | VALIDATION_ERROR
  | INVALID_ADDRESS
  | INVALID_PACKAGE
  | NETWORK_ERROR
  | TIMEOUT
  | RATE_LIMIT_EXCEEDED
  | API_ERROR
  | MALFORMED_RESPONSE
  | SERVICE_UNAVAILABLE
  | CIRCUIT_OPEN
  | CONFIG_ERROR
  | UNKNOWN_ERROR
  deriving DecidableEq, Repr

/-- `ServiceError`, `src/domain/errors/service-error.ts`.  The opaque
`details`/`cause` payloads are dropped from the embedding (no claim reads
them); `message` is kept as a string. -/
structure ServiceError where
  message : String
  code : ErrorCode
  carrier : String
  retryable : Bool
  deriving DecidableEq, Repr

/-- `AuthError`, `src/domain/errors/auth-error.ts`: `carrier ?? 'SYSTEM'`,
`retryable: code !== ErrorCode.AUTH_FAILED`. -/
def mkAuthError (code : ErrorCode) (message : String) (carrier : Option String) :
    ServiceError :=
  { message := message
    code := code
    carrier := carrier.getD "SYSTEM"
    retryable := code != ErrorCode.AUTH_FAILED }

/-- `RateLimitError`, `src/domain/errors/rate-limit-error.ts`:
code `RATE_LIMIT_EXCEEDED`, retryable `true`. -/
def mkRateLimitError (message : String) (carrier : Option String) : ServiceError :=
  { message := message
    code := ErrorCode.RATE_LIMIT_EXCEEDED
    carrier := carrier.getD "SYSTEM"
    retryable := true }

/-- `CarrierError`, `src/domain/errors/carrier-error.ts`:
`retryable: options?.retryable ?? false`. -/
def mkCarrierError (code : ErrorCode) (message : String) (carrier : String)
    (retryableOpt : Option Bool) : ServiceError :=
  { message := message
    code := code
    carrier := carrier
    retryable := retryableOpt.getD false }

/-- `CircuitOpenError`, `src/domain/errors/circuit-open-error.ts`:
code `CIRCUIT_OPEN`, retryable `true`. -/
def mkCircuitOpenError (message : String) (carrier : String) : ServiceError :=
  { message := message
    code := ErrorCode.CIRCUIT_OPEN
    carrier := carrier
    retryable := true }

/-- `ValidationError`, `src/domain/errors/validation-error.ts`:
code `VALIDATION_ERROR`, carrier `SYSTEM`, retryable `false`. -/
def mkValidationError (message : String) : ServiceError :=
  { message := message
    code := ErrorCode.VALIDATION_ERROR
    carrier := "SYSTEM"
    retryable := false }

/-- A thrown JavaScript value: either a `ServiceError` instance or any other
error (the `instanceof ServiceError` test in the policy distinguishes them). -/
inductive ThrownError where
  | service (e : ServiceError)
  | plain (msg : String)
  deriving DecidableEq, Repr

/-! ## Retry policy (`src/infrastructure/retry/retry-policy.ts`) -/

/-- `ExponentialBackoffOptions`.  The source field `jitterRatio` is named
`jitterFrac` here. -/
structure ExponentialBackoffOptions where
  maxAttempts : Nat
  baseDelayMs : ℚ
  maxDelayMs : ℚ
  jitterFrac : ℚ
  deriving DecidableEq, Repr

/-- `applyJitter(delayMs, jitterRatio)` with `Math.random()` made explicit as
`rand`: `max(0, Math.floor(min + random * (max - min)))` where
`min = delayMs - delayMs*jitter`, `max = delayMs + delayMs*jitter`. -/
def applyJitter (delayMs jitterFrac rand : ℚ) : ℤ :=
  let jitter := delayMs * jitterFrac
  let lo := delayMs - jitter
  let hi := delayMs + jitter
  max 0 ⌊lo + rand * (hi - lo)⌋

/-- `ExponentialBackoffRetryPolicy.shouldRetry`. -/
def ExponentialBackoffOptions.shouldRetry (o : ExponentialBackoffOptions)
    (error : ThrownError) (attempt : Nat) : Bool :=
  if attempt ≥ o.maxAttempts then false
  else
    match error with
    | ThrownError.service e => e.retryable
    | ThrownError.plain _ => false

/-- `ExponentialBackoffRetryPolicy.getDelayMs(attempt)`:
`min(baseDelayMs * 2^(attempt-1), maxDelayMs)` then jitter. -/
def ExponentialBackoffOptions.getDelayMs (o : ExponentialBackoffOptions)
    (attempt : Nat) (rand : ℚ) : ℤ :=
  let e : ℚ := 2 ^ (attempt - 1)
  let raw := o.baseDelayMs * e
  let capped := min raw o.maxDelayMs
  applyJitter capped o.jitterFrac rand

/-! ## Circuit breaker (`src/infrastructure/circuit-breaker/circuit-breaker.ts`) -/

/-- `type State = 'closed' | 'open' | 'half_open'`. -/
inductive CBState where
  | closed
  | «open»
  | half_open
  deriving DecidableEq, Repr

/-- `CircuitBreakerOptions`. -/
structure CircuitBreakerOptions where
  failureThreshold : Nat
  openDurationMs : ℤ
  deriving DecidableEq, Repr

/-- The mutable fields of class `CircuitBreaker`. -/
structure CircuitBreaker where
  state : CBState
  consecutiveFailures : Nat
  openedAtMs : ℤ
  deriving DecidableEq, Repr

/-- Field initializers: `state = 'closed'`, `consecutiveFailures = 0`,
`openedAtMs = 0`. -/
def CircuitBreaker.initial : CircuitBreaker :=
  { state := CBState.closed, consecutiveFailures := 0, openedAtMs := 0 }

/-- `onSuccess()`. -/
def CircuitBreaker.onSuccess (b : CircuitBreaker) : CircuitBreaker :=
  { b with consecutiveFailures := 0, state := CBState.closed }

/-- `onFailure()`.  The source re-reads `this.now()` when recording
`openedAtMs`; the embedding uses the single `now` of the call. -/
def CircuitBreaker.onFailure (o : CircuitBreakerOptions) (b : CircuitBreaker)
    (now : ℤ) : CircuitBreaker :=
  let f := b.consecutiveFailures + 1
  if f ≥ o.failureThreshold then
    { state := CBState.«open», consecutiveFailures := f, openedAtMs := now }
  else if b.state = CBState.half_open then
    { state := CBState.«open», consecutiveFailures := f, openedAtMs := now }
  else
    { b with consecutiveFailures := f }

/-- The open-state guard at the top of `execute`: `none` means fail fast with
`CircuitOpenError`; `some b1` is the state after a possible
`open → half_open` transition, with the call admitted. -/
def CircuitBreaker.checkOpen (o : CircuitBreakerOptions) (b : CircuitBreaker)
    (now : ℤ) : Option CircuitBreaker :=
  if b.state = CBState.«open» then
    if now - b.openedAtMs < o.openDurationMs then none
    else some { b with state := CBState.half_open }
  else some b

/-- Outcome of one `execute` call: on `fastFail` the wrapped operation was not
invoked; on `invoked` it ran and its result propagates unchanged. -/
inductive CBOutcome (α : Type) where
  | fastFail (e : ServiceError)
  | invoked (r : Except ThrownError α)
  deriving Repr

/-- `CircuitBreaker.execute(carrier, operation)`.  `op` is the result the
wrapped operation produces when (and only when) the call is admitted. -/
def CircuitBreaker.execute {α : Type} (o : CircuitBreakerOptions)
    (carrier : String) (b : CircuitBreaker) (now : ℤ)
    (op : Except ThrownError α) : CBOutcome α × CircuitBreaker :=
  match CircuitBreaker.checkOpen o b now with
  | none =>
    (CBOutcome.fastFail (mkCircuitOpenError "Circuit breaker is open" carrier), b)
  | some b1 =>
    match op with
    | Except.ok v => (CBOutcome.invoked (Except.ok v), b1.onSuccess)
    | Except.error e => (CBOutcome.invoked (Except.error e), b1.onFailure o now)

/-! ## Generic retry executor (`src/infrastructure/retry/with-retry.ts`) -/

/-- The `RetryPolicy` interface. -/
structure RetryPolicyM where
  maxAttempts : Nat
  shouldRetry : ThrownError → Nat → Bool
  getDelayMs : Nat → ThrownError → ℤ

/-- An `ExponentialBackoffRetryPolicy` instance as a `RetryPolicyM`;
`rands k` is the `Math.random()` draw used when computing the delay before
attempt `k`. -/
def ExponentialBackoffOptions.toPolicy (o : ExponentialBackoffOptions)
    (rands : Nat → ℚ) : RetryPolicyM :=
  { maxAttempts := o.maxAttempts
    shouldRetry := fun e a => o.shouldRetry e a
    getDelayMs := fun a _ => o.getDelayMs a (rands a) }

/-- Observable result of a `withRetry` run: the settled value, how many times
the operation was invoked, and the backoff sleeps performed (in order). -/
structure RetryRun (α : Type) where
  result : Except ThrownError α
  invocations : Nat
  sleeps : List ℤ
  deriving Repr

/-- The `while (true)` loop of `withRetry`, with explicit fuel (`none` models
a loop cut off before settling; for the exponential policy enough fuel always
settles).  `attempt` starts at 1 and counts invocations so far on return. -/
def withRetryAux {α : Type} (policy : RetryPolicyM)
    (op : Nat → Except ThrownError α) :
    Nat → Nat → List ℤ → Option (RetryRun α)
  | 0, _, _ => none
  | fuel + 1, attempt, sleeps =>
    match op attempt with
    | Except.ok v =>
      some { result := Except.ok v, invocations := attempt, sleeps := sleeps.reverse }
    | Except.error e =>
      if policy.shouldRetry e attempt then
        let next := attempt + 1
        let d := policy.getDelayMs next e
        withRetryAux policy op fuel next (d :: sleeps)
      else
        some { result := Except.error e, invocations := attempt, sleeps := sleeps.reverse }

/-- `withRetry(operation, policy)`.  `policy.maxAttempts + 1` units of fuel
cover every policy that denies retries at `attempt ≥ maxAttempts`. -/
def withRetry {α : Type} (policy : RetryPolicyM)
    (op : Nat → Except ThrownError α) : Option (RetryRun α) :=
  withRetryAux policy op (policy.maxAttempts + 1) 1 []

/-! ## OAuth client (`src/infrastructure/auth/oauth-client.ts`) -/

/-- A transport-level HTTP response (`HttpResponse` port): status plus raw
body text. -/
structure HttpResponse where
  status : Nat
  bodyText : String
  deriving DecidableEq, Repr

/-- The token endpoint's JSON body after `JSON.parse`, restricted to the
fields the zod schema reads (`none` models a body that is not JSON or not an
object shaped like a token response). -/
structure TokenResponseBody where
  access_token : String
  expires_in : Option ℤ
  deriving DecidableEq, Repr

/-- `OAuthToken`.  (`tokenType` is dropped: nothing reads it.) -/
structure OAuthToken where
  accessToken : String
  expiresInSeconds : ℤ
  deriving DecidableEq, Repr

/-- `tokenResponseSchema.safeParse`: `access_token` must be a non-empty
string, `expires_in`, when present, a positive integer. -/
def tokenResponseValid (b : TokenResponseBody) : Bool :=
  b.access_token ≠ "" && (match b.expires_in with
    | none => true
    | some n => 1 ≤ n)

/-- `OAuthClient.acquireToken()`, given the token endpoint's response:
non-2xx status or a schema-invalid body fail with `AuthError(AUTH_FAILED)`;
otherwise `expiresInSeconds = expires_in ?? 3600`. -/
def OAuthClient.acquireToken (status : Nat) (body : Option TokenResponseBody) :
    Except ServiceError OAuthToken :=
  if status < 200 ∨ 300 ≤ status then
    Except.error (mkAuthError ErrorCode.AUTH_FAILED
      "OAuth token request failed" none)
  else
    match body with
    | none =>
      Except.error (mkAuthError ErrorCode.AUTH_FAILED
        "OAuth token response failed validation" none)
    | some b =>
      if tokenResponseValid b then
        Except.ok { accessToken := b.access_token
                    expiresInSeconds := b.expires_in.getD 3600 }
      else
        Except.error (mkAuthError ErrorCode.AUTH_FAILED
          "OAuth token response failed validation" none)

/-! ## Auth provider
(`src/infrastructure/auth/client-credentials-auth-provider.ts`)

The provider's fields are `cached` and `refreshPromise`.  Promises are
embedded by id: `refreshing = some p` models `refreshPromise` holding the
promise with id `p`.  `nextPromiseId` and `endpointCalls` are ghost
instrumentation: fresh promise ids and a count of token-endpoint round trips
started (a refresh issues its POST synchronously when started). -/

/-- `CachedToken` (the cached `accessToken` plus absolute expiry). -/
structure CachedToken where
  accessToken : String
  expiresAtMs : ℤ
  deriving DecidableEq, Repr

def REFRESH_BUFFER_MS : ℤ := 60000

structure AuthProviderState where
  cached : Option CachedToken
  refreshing : Option Nat
  nextPromiseId : Nat
  endpointCalls : Nat
  deriving DecidableEq, Repr

/-- A fresh provider: `cached = null`, `refreshPromise = null`. -/
def AuthProviderState.initial : AuthProviderState :=
  { cached := none, refreshing := none, nextPromiseId := 0, endpointCalls := 0 }

/-- `invalidate()`: clears the cache unconditionally. -/
def AuthProviderState.invalidate (s : AuthProviderState) : AuthProviderState :=
  { s with cached := none }

/-- The guard `this.cached && this.cached.expiresAtMs > now + REFRESH_BUFFER_MS`. -/
def cacheUsable (cached : Option CachedToken) (now : ℤ) : Bool :=
  match cached with
  | some c => now + REFRESH_BUFFER_MS < c.expiresAtMs
  | none => false

/-- What one `getAuthorizationHeader()` call observes at its synchronous
prefix: an immediate cache hit, or suspension on the shared refresh promise
`p` (as joiner or creator). -/
inductive AuthCallOutcome where
  | cacheHit (header : String)
  | awaits (promiseId : Nat)
  deriving DecidableEq, Repr

/-- The synchronous prefix of `getAuthorizationHeader()`: return the cached
header, join the in-flight refresh, or start a new refresh (which issues the
token-endpoint call at once and publishes the promise before suspending). -/
def getAuthorizationHeaderStep (s : AuthProviderState) (now : ℤ) :
    AuthCallOutcome × AuthProviderState :=
  if cacheUsable s.cached now then
    match s.cached with
    | some c => (AuthCallOutcome.cacheHit ("Bearer " ++ c.accessToken), s)
    | none => (AuthCallOutcome.awaits 0, s)
  else
    match s.refreshing with
    | some p => (AuthCallOutcome.awaits p, s)
    | none =>
      (AuthCallOutcome.awaits s.nextPromiseId,
       { s with refreshing := some s.nextPromiseId
                nextPromiseId := s.nextPromiseId + 1
                endpointCalls := s.endpointCalls + 1 })

/-- Settlement of the in-flight `refresh()`: on success cache
`expiresAtMs = now + expiresInSeconds*1000 − REFRESH_BUFFER_MS` and resolve
with the bearer header; the `.finally` clears `refreshPromise` in both
branches. -/
def settleRefresh (s : AuthProviderState) (now : ℤ)
    (acquired : Except ServiceError OAuthToken) :
    Except ServiceError String × AuthProviderState :=
  match acquired with
  | Except.ok tok =>
    (Except.ok ("Bearer " ++ tok.accessToken),
     { s with
        cached := some { accessToken := tok.accessToken
                         expiresAtMs := now + tok.expiresInSeconds * 1000 - REFRESH_BUFFER_MS }
        refreshing := none })
  | Except.error e => (Except.error e, { s with refreshing := none })

/-- A full sequential `getAuthorizationHeader()` call (no interleaving):
the synchronous prefix, then — if it suspended — settlement with the result
of the token-endpoint call; `acquire k` is the outcome of the `k`-th
token-endpoint round trip. -/
def getAuthorizationHeaderRun (s : AuthProviderState) (now : ℤ)
    (acquire : Nat → Except ServiceError OAuthToken) :
    Except ServiceError String × AuthProviderState :=
  match getAuthorizationHeaderStep s now with
  | (AuthCallOutcome.cacheHit h, s1) => (Except.ok h, s1)
  | (AuthCallOutcome.awaits _, s1) => settleRefresh s1 now (acquire s.endpointCalls)

/-- The synchronous prefixes of `n` concurrent `getAuthorizationHeader()`
callers arriving in the same scheduling tick, run in order (the
single-threaded cooperative model: each prefix is atomic). -/
def runCallers (now : ℤ) : AuthProviderState → Nat →
    List AuthCallOutcome × AuthProviderState
  | s, 0 => ([], s)
  | s, n + 1 =>
    let r := getAuthorizationHeaderStep s now
    let rest := runCallers now r.2 n
    (r.1 :: rest.1, rest.2)

/-! ## UPS rate client (`src/integrations/ups/ups-rate-client.ts`) -/

deriving instance DecidableEq for Except

/-- Everything one `UpsRateClient.send` call makes observable: the settled
result, the provider state left behind, the Authorization headers of the
rate-endpoint POSTs in order, and how many times `auth.invalidate()` ran. -/
structure SendRun where
  result : Except ServiceError HttpResponse
  auth : AuthProviderState
  rateCallHeaders : List String
  invalidations : Nat
  deriving DecidableEq, Repr

/-- `UpsRateClient.send`.  `transport k` is the rate endpoint's response to
the `k`-th POST of this call (0-based); `acquire` feeds the auth provider as
in `getAuthorizationHeaderRun`.  Branch order follows the source: 401/403
(invalidate, one forced-refresh retry, second 401/403 ⇒
`AuthError(AUTH_TOKEN_INVALID)`), then 429, then ≥ 500, then other non-2xx,
else the response. -/
def UpsRateClient.send (s0 : AuthProviderState) (now : ℤ)
    (acquire : Nat → Except ServiceError OAuthToken)
    (transport : Nat → HttpResponse) : SendRun :=
  match getAuthorizationHeaderRun s0 now acquire with
  | (Except.error e, s1) =>
    { result := Except.error e, auth := s1, rateCallHeaders := [], invalidations := 0 }
  | (Except.ok h1, s1) =>
    let first := transport 0
    if first.status = 401 ∨ first.status = 403 then
      let s2 := s1.invalidate
      match getAuthorizationHeaderRun s2 now acquire with
      | (Except.error e, s3) =>
        { result := Except.error e, auth := s3, rateCallHeaders := [h1], invalidations := 1 }
      | (Except.ok h2, s3) =>
        let retry := transport 1
        if retry.status = 401 ∨ retry.status = 403 then
          { result := Except.error (mkAuthError ErrorCode.AUTH_TOKEN_INVALID
              "Authentication token invalid or expired" (some "UPS"))
            auth := s3, rateCallHeaders := [h1, h2], invalidations := 1 }
        else
          { result := Except.ok retry, auth := s3
            rateCallHeaders := [h1, h2], invalidations := 1 }
    else if first.status = 429 then
      { result := Except.error (mkRateLimitError
          "Rate limit exceeded. Please retry after some time." (some "UPS"))
        auth := s1, rateCallHeaders := [h1], invalidations := 0 }
    else if 500 ≤ first.status then
      { result := Except.error (mkCarrierError ErrorCode.API_ERROR
          "Carrier service unavailable" "UPS" (some true))
        auth := s1, rateCallHeaders := [h1], invalidations := 0 }
    else if first.status < 200 ∨ 300 ≤ first.status then
      { result := Except.error (mkCarrierError ErrorCode.API_ERROR
          "UPS API request failed" "UPS" (some false))
        auth := s1, rateCallHeaders := [h1], invalidations := 0 }
    else
      { result := Except.ok first, auth := s1
        rateCallHeaders := [h1], invalidations := 0 }

/-! ## Composed resilient client (`registerUpsRateCarrier`)

`registerUpsRateCarrier` builds
`CircuitBreakerCarrierClient('UPS', breaker, RetryingCarrierClient('UPS',
policy, upsClient))`: the breaker decorator is outermost and its wrapped
operation is the whole retrying send.  `composedSend` is that composition:
`CircuitBreaker.checkOpen` guards first; only when admitted does
`withRetry` run, and the breaker then records the settled outcome. -/

/-- Breaker defaults in `registerUpsRateCarrier`:
`failureThreshold: 5, openDurationMs: 30000`. -/
def registerDefaultBreakerOptions : CircuitBreakerOptions :=
  { failureThreshold := 5, openDurationMs := 30000 }

/-- Retry-policy defaults in `registerUpsRateCarrier`:
`maxAttempts: 3, baseDelayMs: 200, maxDelayMs: 2000, jitterRatio: 0.2`. -/
def registerDefaultRetryOptions : ExponentialBackoffOptions :=
  { maxAttempts := 3, baseDelayMs := 200, maxDelayMs := 2000, jitterFrac := 1/5 }

/-- `resilientClient.send`: `breaker.execute(carrier, () => retrying.send(…))`
where `retrying.send` is `withRetry(() => upsClient.send(…), policy)`.
`opAttempt k` is what the raw (401-aware) transport send settles to on the
`k`-th retry-executor invocation; on a fast-fail it is never invoked, which
the `invocations = 0, sleeps = []` run records.  `none` only when `withRetry`
runs out of fuel (never, for policies denying at `maxAttempts`). -/
def composedSend {α : Type} (cbo : CircuitBreakerOptions) (policy : RetryPolicyM)
    (carrier : String) (b : CircuitBreaker) (now : ℤ)
    (opAttempt : Nat → Except ThrownError α) :
    Option (RetryRun α × CircuitBreaker) :=
  match CircuitBreaker.checkOpen cbo b now with
  | none =>
    some ({ result := Except.error (ThrownError.service
              (mkCircuitOpenError "Circuit breaker is open" carrier))
            invocations := 0
            sleeps := [] }, b)
  | some b1 =>
    match withRetry policy opAttempt with
    | none => none
    | some run =>
      match run.result with
      | Except.ok _ => some (run, b1.onSuccess)
      | Except.error _ => some (run, b1.onFailure cbo now)

/-! ## Domain rate model (`src/domain/rates.ts`) and UPS wire response
(`src/integrations/ups/ups-schemas.ts`) -/

/-- `ServiceLevel`. -/
inductive ServiceLevel where
  | ground
  | nextDayAir
  | secondDayAir
  | threeDaySelect
  | nextDayAirEarly
  | secondDayAirAM
  | worldwideExpress
  | worldwideExpressPlus
  | worldwideExpedited
  | standard
  | express
  deriving DecidableEq, Repr

/-- `RateQuote`.  `totalCost` is the exact rational reading of the wire
decimal string (the source applies JS `parseFloat`; see `parseDecimal`). -/
structure RateQuote where
  serviceLevel : ServiceLevel
  serviceName : String
  totalCost : ℚ
  currency : String
  estimatedDays : Option ℤ
  carrier : String
  deriving DecidableEq, Repr

/-- `RateResponse`. -/
structure RateResponse where
  quotes : List RateQuote
  requestId : String
  deriving DecidableEq, Repr

/-- `moneySchema`: `{CurrencyCode, MonetaryValue}` (value kept as the wire
string). -/
structure Money where
  CurrencyCode : String
  MonetaryValue : String
  deriving DecidableEq, Repr

/-- `serviceSchema`: `{Code, Description?}`. -/
structure UpsServiceField where
  Code : String
  Description : Option String
  deriving DecidableEq, Repr

/-- `NegotiatedRateCharges: { TotalCharge }`. -/
structure UpsNegotiatedRateCharges where
  TotalCharge : Money
  deriving DecidableEq, Repr

/-- `GuaranteedDelivery`.  `DateMs` is the epoch-ms value of
`new Date(Date).getTime()` (string-to-date parsing abstracted to its
result); the optional `Time` field is unread. -/
structure UpsGuaranteedDelivery where
  DateMs : ℤ
  deriving DecidableEq, Repr

/-- `ratedShipmentSchema`. -/
structure UpsRatedShipment where
  Service : UpsServiceField
  TotalCharges : Money
  TotalChargesWithTaxes : Option Money
  NegotiatedRateCharges : Option UpsNegotiatedRateCharges
  GuaranteedDelivery : Option UpsGuaranteedDelivery
  deriving DecidableEq, Repr

/-- `statusSchema` / `alertSchema`: `{Code, Description}`. -/
structure UpsStatus where
  Code : String
  Description : String
  deriving DecidableEq, Repr

/-- `RateResponse.Response` of the wire response. -/
structure UpsResponseHead where
  ResponseStatus : UpsStatus
  Alert : Option (List UpsStatus)
  deriving DecidableEq, Repr

/-- `upsRateResponseSchema` (the `RateResponse` wrapper object). -/
structure UpsRateResponse where
  Response : UpsResponseHead
  RatedShipment : Option (List UpsRatedShipment)
  deriving DecidableEq, Repr

/-! ## UPS rate mapper (`src/integrations/ups/ups-rate-mapper.ts`) -/

/-- `SERVICE_CODE_TO_LEVEL` (a string-keyed record; `none` = key absent). -/
def SERVICE_CODE_TO_LEVEL : String → Option ServiceLevel
  | "03" => some ServiceLevel.ground
  | "01" => some ServiceLevel.nextDayAir
  | "02" => some ServiceLevel.secondDayAir
  | "12" => some ServiceLevel.threeDaySelect
  | "14" => some ServiceLevel.nextDayAirEarly
  | "59" => some ServiceLevel.secondDayAirAM
  | "07" => some ServiceLevel.worldwideExpress
  | "54" => some ServiceLevel.worldwideExpressPlus
  | "08" => some ServiceLevel.worldwideExpedited
  | "11" => some ServiceLevel.standard
  | _ => none

/-- `UPS_SERVICE_CODES` (`src/integrations/ups/ups-types.ts`), keyed by the
service-level string as in the source record. -/
def UPS_SERVICE_CODES : String → Option String
  | "ground" => some "03"
  | "nextDayAir" => some "01"
  | "secondDayAir" => some "02"
  | "threeDaySelect" => some "12"
  | "nextDayAirEarly" => some "14"
  | "secondDayAirAM" => some "59"
  | "worldwideExpress" => some "07"
  | "worldwideExpressPlus" => some "54"
  | "worldwideExpedited" => some "08"
  | "standard" => some "11"
  | "express" => some "07"
  | _ => none

/-- `UPS_SERVICE_NAMES`, read with a `ServiceLevel` key in
`fromCarrierResponse` (total on the union type, hence always `some`). -/
def UPS_SERVICE_NAMES : ServiceLevel → Option String
  | ServiceLevel.ground => some "UPS Ground"
  | ServiceLevel.nextDayAir => some "UPS Next Day Air"
  | ServiceLevel.secondDayAir => some "UPS 2nd Day Air"
  | ServiceLevel.threeDaySelect => some "UPS 3 Day Select"
  | ServiceLevel.nextDayAirEarly => some "UPS Next Day Air Early"
  | ServiceLevel.secondDayAirAM => some "UPS 2nd Day Air A.M."
  | ServiceLevel.worldwideExpress => some "UPS Worldwide Express"
  | ServiceLevel.worldwideExpressPlus => some "UPS Worldwide Express Plus"
  | ServiceLevel.worldwideExpedited => some "UPS Worldwide Expedited"
  | ServiceLevel.standard => some "UPS Standard"
  | ServiceLevel.express => some "UPS Express"

/-- Exact-decimal stand-in for the JS `parseFloat` applied to
`MonetaryValue` wire strings (`"123"`, `"19.99"`, `"-4.5"`); other shapes
default to 0.  Claims only compare selections of this function's results, so
the binary-float rounding of the source is immaterial here. -/
def parseDecimal (s : String) : ℚ :=
  match s.splitOn "." with
  | [a] => ((a.toInt?).getD 0 : ℤ)
  | [a, b] =>
    let ip : ℤ := (a.toInt?).getD 0
    let fp : ℕ := (b.toNat?).getD 0
    let scale : ℕ := 10 ^ b.length
    let sign : ℤ := if a.startsWith "-" then -1 else 1
    (ip : ℚ) + (sign : ℚ) * (fp : ℚ) / (scale : ℚ)
  | _ => 0

def MS_PER_DAY : ℚ := 86400000

/-- The per-shipment body of the `ratedShipments.map` in
`fromCarrierResponse`: level defaults to `'express'` on unmapped codes,
charges prefer `NegotiatedRateCharges?.TotalCharge`, then
`TotalChargesWithTaxes`, then `TotalCharges`; name falls back from
`Service.Description` to the name table to `'Unknown'`. -/
def quoteOfShipment (now : ℤ) (sh : UpsRatedShipment) : RateQuote :=
  let serviceLevel :=
    (SERVICE_CODE_TO_LEVEL (UpsServiceField.Code sh.Service)).getD ServiceLevel.express
  let charges :=
    ((sh.NegotiatedRateCharges).map UpsNegotiatedRateCharges.TotalCharge).getD
      ((sh.TotalChargesWithTaxes).getD sh.TotalCharges)
  let estimatedDays :=
    (sh.GuaranteedDelivery).map
      (fun g => ⌈((UpsGuaranteedDelivery.DateMs g - now : ℤ) : ℚ) / MS_PER_DAY⌉)
  { serviceLevel := serviceLevel
    serviceName :=
      ((UpsServiceField.Description sh.Service)).getD
        ((UPS_SERVICE_NAMES serviceLevel).getD "Unknown")
    totalCost := parseDecimal (Money.MonetaryValue charges)
    currency := Money.CurrencyCode charges
    estimatedDays := estimatedDays
    carrier := "UPS" }

/-- `UpsRateMapper.fromCarrierResponse(response, requestId)` (`Date.now()`
made explicit as `now`). -/
def UpsRateMapper.fromCarrierResponse (resp : UpsRateResponse)
    (requestId : String) (now : ℤ) : Except ServiceError RateResponse :=
  if UpsStatus.Code (UpsResponseHead.ResponseStatus resp.Response) ≠ "1" then
    Except.error (mkCarrierError ErrorCode.API_ERROR "UPS API error" "UPS" none)
  else
    let ratedShipments := (resp.RatedShipment).getD []
    if ratedShipments.length = 0 then
      Except.error (mkCarrierError ErrorCode.API_ERROR
        "UPS API returned no rate quotes" "UPS" none)
    else
      Except.ok { quotes := ratedShipments.map (quoteOfShipment now)
                  requestId := requestId }

/-- `UPS_SERVICE_NAMES` under its native string keys, as read by
`toCarrierRequest`. -/
def UPS_SERVICE_NAMES_BY_KEY : String → Option String
  | "ground" => some "UPS Ground"
  | "nextDayAir" => some "UPS Next Day Air"
  | "secondDayAir" => some "UPS 2nd Day Air"
  | "threeDaySelect" => some "UPS 3 Day Select"
  | "nextDayAirEarly" => some "UPS Next Day Air Early"
  | "secondDayAirAM" => some "UPS 2nd Day Air A.M."
  | "worldwideExpress" => some "UPS Worldwide Express"
  | "worldwideExpressPlus" => some "UPS Worldwide Express Plus"
  | "worldwideExpedited" => some "UPS Worldwide Expedited"
  | "standard" => some "UPS Standard"
  | "express" => some "UPS Express"
  | _ => none

/-- The `if (request.serviceLevel)` block of
`UpsRateMapper.toCarrierRequest`, over the level's string key: a level absent
from `UPS_SERVICE_CODES` fails fast with a `ValidationError` (fail-closed),
otherwise the wire `Service` field is produced. -/
def UpsRateMapper.serviceSelection (serviceLevel : Option String) :
    Except ServiceError (Option UpsServiceField) :=
  match serviceLevel with
  | none => Except.ok none
  | some lvl =>
    match UPS_SERVICE_CODES lvl with
    | none => Except.error (mkValidationError ("Unsupported service level: " ++ lvl))
    | some code =>
      Except.ok (some { Code := code, Description := UPS_SERVICE_NAMES_BY_KEY lvl })

/-! ## Theorems -/

/-- C8: a wire response whose vendor status code is the success value `"1"`
but whose `RatedShipment` list is empty or absent makes
`UpsRateMapper.fromCarrierResponse` fail with a `CarrierError` of code
`API_ERROR` and `retryable = false`; and the mapper never returns a
`RateResponse` with zero quotes. -/
theorem C8_empty_shipments_api_error (resp : UpsRateResponse)
    (requestId : String) (now : ℤ)
    (hcode : UpsStatus.Code (UpsResponseHead.ResponseStatus resp.Response) = "1")
    (hempty : (resp.RatedShipment).getD [] = []) :
    (UpsRateMapper.fromCarrierResponse resp requestId now =
        Except.error (mkCarrierError ErrorCode.API_ERROR
          "UPS API returned no rate quotes" "UPS" none))
    ∧ (mkCarrierError ErrorCode.API_ERROR
        "UPS API returned no rate quotes" "UPS" none).retryable = false
    ∧ (mkCarrierError ErrorCode.API_ERROR
        "UPS API returned no rate quotes" "UPS" none).code = ErrorCode.API_ERROR
    ∧ ∀ (resp2 : UpsRateResponse) (rid2 : String) (now2 : ℤ) (r : RateResponse),
        UpsRateMapper.fromCarrierResponse resp2 rid2 now2 = Except.ok r →
        r.quotes ≠ [] := by
  refine ⟨?_, rfl, rfl, ?_⟩
  · simp [UpsRateMapper.fromCarrierResponse, hcode, hempty]
  · intro resp2 rid2 now2 r hok
    unfold UpsRateMapper.fromCarrierResponse at hok
    by_cases h1 : UpsStatus.Code (UpsResponseHead.ResponseStatus resp2.Response) = "1"
    · simp only [h1, ne_eq, not_true_eq_false, if_false] at hok
      by_cases h2 : ((resp2.RatedShipment).getD []).length = 0
      · simp [h2] at hok
      · simp only [h2, if_false] at hok
        cases hok
        simp only [ne_eq, List.map_eq_nil_iff]
        intro hnil
        exact h2 (by simp [hnil])
    · simp [h1] at hok

/-- C8 witness: a concrete success-status response with an absent shipment
list. -/
theorem C8_empty_shipments_api_error_witness :
    UpsRateMapper.fromCarrierResponse
        { Response := { ResponseStatus := { Code := "1", Description := "Success" }
                        Alert := none }
          RatedShipment := none } "req-1" 0 =
      Except.error (mkCarrierError ErrorCode.API_ERROR
        "UPS API returned no rate quotes" "UPS" none) :=
  (C8_empty_shipments_api_error
    { Response := { ResponseStatus := { Code := "1", Description := "Success" }
                    Alert := none }
      RatedShipment := none } "req-1" 0 rfl rfl).1

/-- C9: on a successful wire response (status code `"1"`, non-empty shipment
list) the mapper returns one quote per `RatedShipment`, in order, and each
quote's cost and currency come from `NegotiatedRateCharges.TotalCharge`
whenever it is present, and from the list/base charge fields
(`TotalChargesWithTaxes ?? TotalCharges`) otherwise. -/
theorem C9_negotiated_rate_precedence (resp : UpsRateResponse)
    (requestId : String) (now : ℤ)
    (hcode : UpsStatus.Code (UpsResponseHead.ResponseStatus resp.Response) = "1")
    (hne : (resp.RatedShipment).getD [] ≠ []) :
    ∃ r, UpsRateMapper.fromCarrierResponse resp requestId now = Except.ok r
      ∧ r.quotes = ((resp.RatedShipment).getD []).map (quoteOfShipment now)
      ∧ r.quotes.length = ((resp.RatedShipment).getD []).length
      ∧ ∀ sh : UpsRatedShipment,
          (∀ n, sh.NegotiatedRateCharges = some n →
            (quoteOfShipment now sh).totalCost =
              parseDecimal (Money.MonetaryValue (UpsNegotiatedRateCharges.TotalCharge n))
            ∧ (quoteOfShipment now sh).currency =
              Money.CurrencyCode (UpsNegotiatedRateCharges.TotalCharge n))
          ∧ (sh.NegotiatedRateCharges = none →
            (quoteOfShipment now sh).totalCost =
              parseDecimal (Money.MonetaryValue ((sh.TotalChargesWithTaxes).getD sh.TotalCharges))
            ∧ (quoteOfShipment now sh).currency =
              Money.CurrencyCode ((sh.TotalChargesWithTaxes).getD sh.TotalCharges)) := by
  have hlen : ((resp.RatedShipment).getD []).length ≠ 0 := by
    simpa [List.length_eq_zero] using hne
  refine ⟨{ quotes := ((resp.RatedShipment).getD []).map (quoteOfShipment now)
            requestId := requestId }, ?_, rfl, by simp, ?_⟩
  · simp [UpsRateMapper.fromCarrierResponse, hcode, hlen]
  · intro sh
    constructor
    · intro n hn
      simp [quoteOfShipment, hn]
    · intro hn
      simp [quoteOfShipment, hn]

/-- C9 witness: a concrete two-shipment response, the first with a negotiated
total, the second without. -/
theorem C9_negotiated_rate_precedence_witness :
    ∃ r, UpsRateMapper.fromCarrierResponse
        { Response := { ResponseStatus := { Code := "1", Description := "Success" }
                        Alert := none }
          RatedShipment := some
            [ { Service := { Code := "03", Description := some "UPS Ground" }
                TotalCharges := { CurrencyCode := "USD", MonetaryValue := "25.00" }
                TotalChargesWithTaxes := none
                NegotiatedRateCharges :=
                  some { TotalCharge := { CurrencyCode := "USD", MonetaryValue := "18.00" } }
                GuaranteedDelivery := none },
              { Service := { Code := "01", Description := none }
                TotalCharges := { CurrencyCode := "USD", MonetaryValue := "42.50" }
                TotalChargesWithTaxes := none
                NegotiatedRateCharges := none
                GuaranteedDelivery := none } ] } "req-2" 0 = Except.ok r
      ∧ r.quotes.length = 2 := by
  obtain ⟨r, hr, -, hlen, -⟩ :=
    C9_negotiated_rate_precedence
      { Response := { ResponseStatus := { Code := "1", Description := "Success" }
                      Alert := none }
        RatedShipment := some
          [ { Service := { Code := "03", Description := some "UPS Ground" }
              TotalCharges := { CurrencyCode := "USD", MonetaryValue := "25.00" }
              TotalChargesWithTaxes := none
              NegotiatedRateCharges :=
                some { TotalCharge := { CurrencyCode := "USD", MonetaryValue := "18.00" } }
              GuaranteedDelivery := none },
            { Service := { Code := "01", Description := none }
              TotalCharges := { CurrencyCode := "USD", MonetaryValue := "42.50" }
              TotalChargesWithTaxes := none
              NegotiatedRateCharges := none
              GuaranteedDelivery := none } ] } "req-2" 0 rfl (by simp)
  exact ⟨r, hr, by simpa using hlen⟩

/-- C10: `fromCarrierResponse` never fails because of an unrecognized vendor
service code: the success-path mapping is total, a shipment whose
`Service.Code` is outside the ten-entry table yields `serviceLevel =
'express'` with the name fallback chain `Description`, then the name table,
then `'Unknown'`; by contrast the request side fails closed on a service
level missing from `UPS_SERVICE_CODES`. -/
theorem C10_unknown_service_code_defaults (resp : UpsRateResponse)
    (requestId : String) (now : ℤ)
    (hcode : UpsStatus.Code (UpsResponseHead.ResponseStatus resp.Response) = "1")
    (hne : (resp.RatedShipment).getD [] ≠ []) :
    (∃ r, UpsRateMapper.fromCarrierResponse resp requestId now = Except.ok r)
    ∧ (∀ sh : UpsRatedShipment,
        SERVICE_CODE_TO_LEVEL (UpsServiceField.Code sh.Service) = none →
        (quoteOfShipment now sh).serviceLevel = ServiceLevel.express
        ∧ (quoteOfShipment now sh).serviceName =
            ((UpsServiceField.Description sh.Service)).getD
              ((UPS_SERVICE_NAMES ServiceLevel.express).getD "Unknown"))
    ∧ (∀ lvl : String, UPS_SERVICE_CODES lvl = none →
        UpsRateMapper.serviceSelection (some lvl) =
          Except.error (mkValidationError ("Unsupported service level: " ++ lvl))) := by
  have hlen : ((resp.RatedShipment).getD []).length ≠ 0 := by
    simpa [List.length_eq_zero] using hne
  refine ⟨⟨{ quotes := ((resp.RatedShipment).getD []).map (quoteOfShipment now)
             requestId := requestId }, ?_⟩, ?_, ?_⟩
  · simp [UpsRateMapper.fromCarrierResponse, hcode, hlen]
  · intro sh hmiss
    constructor
    · simp [quoteOfShipment, hmiss]
    · simp [quoteOfShipment, hmiss]
  · intro lvl hmiss
    simp [UpsRateMapper.serviceSelection, hmiss]

/-- C10 witness: a response whose only shipment carries the unmapped service
code `"86"` still maps, to an `express` quote named `'UPS Express'`. -/
theorem C10_unknown_service_code_defaults_witness :
    (∃ r, UpsRateMapper.fromCarrierResponse
        { Response := { ResponseStatus := { Code := "1", Description := "Success" }
                        Alert := none }
          RatedShipment := some
            [ { Service := { Code := "86", Description := none }
                TotalCharges := { CurrencyCode := "USD", MonetaryValue := "9.99" }
                TotalChargesWithTaxes := none
                NegotiatedRateCharges := none
                GuaranteedDelivery := none } ] } "req-3" 0 = Except.ok r)
    ∧ (quoteOfShipment 0
        { Service := { Code := "86", Description := none }
          TotalCharges := { CurrencyCode := "USD", MonetaryValue := "9.99" }
          TotalChargesWithTaxes := none
          NegotiatedRateCharges := none
          GuaranteedDelivery := none }).serviceLevel = ServiceLevel.express := by
  obtain ⟨hex, hdef, -⟩ :=
    C10_unknown_service_code_defaults
      { Response := { ResponseStatus := { Code := "1", Description := "Success" }
                      Alert := none }
        RatedShipment := some
          [ { Service := { Code := "86", Description := none }
              TotalCharges := { CurrencyCode := "USD", MonetaryValue := "9.99" }
              TotalChargesWithTaxes := none
              NegotiatedRateCharges := none
              GuaranteedDelivery := none } ] } "req-3" 0 rfl (by simp)
  exact ⟨hex,
    (hdef { Service := { Code := "86", Description := none }
            TotalCharges := { CurrencyCode := "USD", MonetaryValue := "9.99" }
            TotalChargesWithTaxes := none
            NegotiatedRateCharges := none
            GuaranteedDelivery := none } rfl).1⟩

/-! ### Circuit-breaker helper lemmas -/

theorem checkOpen_of_not_open (o : CircuitBreakerOptions) (b : CircuitBreaker)
    (now : ℤ) (h : b.state ≠ CBState.«open») :
    CircuitBreaker.checkOpen o b now = some b := by
  simp [CircuitBreaker.checkOpen, h]

theorem checkOpen_open_fresh (o : CircuitBreakerOptions) (b : CircuitBreaker)
    (now : ℤ) (h : b.state = CBState.«open»)
    (hel : now - b.openedAtMs < o.openDurationMs) :
    CircuitBreaker.checkOpen o b now = none := by
  simp [CircuitBreaker.checkOpen, h, hel]

theorem checkOpen_open_stale (o : CircuitBreakerOptions) (b : CircuitBreaker)
    (now : ℤ) (h : b.state = CBState.«open»)
    (hel : o.openDurationMs ≤ now - b.openedAtMs) :
    CircuitBreaker.checkOpen o b now = some { b with state := CBState.half_open } := by
  simp [CircuitBreaker.checkOpen, h, not_lt.mpr hel]

theorem onFailure_consecutiveFailures (o : CircuitBreakerOptions)
    (b : CircuitBreaker) (now : ℤ) :
    (b.onFailure o now).consecutiveFailures = b.consecutiveFailures + 1 := by
  unfold CircuitBreaker.onFailure
  by_cases h1 : b.consecutiveFailures + 1 ≥ o.failureThreshold
  · simp [h1]
  · by_cases h2 : b.state = CBState.half_open <;> simp [h1, h2]

theorem onFailure_half_open (o : CircuitBreakerOptions) (b : CircuitBreaker)
    (now : ℤ) (h : b.state = CBState.half_open) :
    (b.onFailure o now).state = CBState.«open»
    ∧ (b.onFailure o now).openedAtMs = now := by
  unfold CircuitBreaker.onFailure
  by_cases h1 : b.consecutiveFailures + 1 ≥ o.failureThreshold
  · simp [h1]
  · simp [h1, h]

/-- C3: the breaker is the three-state machine started in `closed`: a closed
failure increments `consecutiveFailures` and opens the breaker at
`failureThreshold`, recording `openedAtMs`; while open and fresh, `execute`
fast-fails with `CircuitOpenError` without running the operation and without
changing state; once stale, the one call is admitted (via `half_open`), a
success resetting the failures and closing, a single failure reopening with
a fresh `openedAtMs` regardless of the threshold; and `consecutiveFailures`
reaches 0 only through a successful call. -/
theorem C3_circuit_breaker_state_machine {α : Type} (o : CircuitBreakerOptions)
    (c : String) (b : CircuitBreaker) (now : ℤ) (e : ThrownError) (v : α)
    (op : Except ThrownError α) :
    (CircuitBreaker.initial =
      { state := CBState.closed, consecutiveFailures := 0, openedAtMs := 0 })
    ∧ (b.state = CBState.closed →
        ((CircuitBreaker.execute o c b now (Except.error e : Except ThrownError α)).2.consecutiveFailures
            = b.consecutiveFailures + 1
        ∧ (o.failureThreshold ≤ b.consecutiveFailures + 1 →
            (CircuitBreaker.execute o c b now (Except.error e : Except ThrownError α)).2.state = CBState.«open»
            ∧ (CircuitBreaker.execute o c b now (Except.error e : Except ThrownError α)).2.openedAtMs = now)
        ∧ (b.consecutiveFailures + 1 < o.failureThreshold →
            (CircuitBreaker.execute o c b now (Except.error e : Except ThrownError α)).2.state = CBState.closed)))
    ∧ (b.state = CBState.«open» → now - b.openedAtMs < o.openDurationMs →
        CircuitBreaker.execute o c b now op =
          (CBOutcome.fastFail (mkCircuitOpenError "Circuit breaker is open" c), b))
    ∧ (b.state = CBState.«open» → o.openDurationMs ≤ now - b.openedAtMs →
        (CircuitBreaker.execute o c b now (Except.ok v) =
          (CBOutcome.invoked (Except.ok v),
            { b with state := CBState.closed, consecutiveFailures := 0 })
        ∧ (CircuitBreaker.execute o c b now (Except.error e : Except ThrownError α)).1
            = CBOutcome.invoked (Except.error e : Except ThrownError α)
        ∧ (CircuitBreaker.execute o c b now (Except.error e : Except ThrownError α)).2.state = CBState.«open»
        ∧ (CircuitBreaker.execute o c b now (Except.error e : Except ThrownError α)).2.openedAtMs = now))
    ∧ (b.state = CBState.half_open →
        (CircuitBreaker.execute o c b now (Except.ok v) =
          (CBOutcome.invoked (Except.ok v),
            { b with state := CBState.closed, consecutiveFailures := 0 })
        ∧ (CircuitBreaker.execute o c b now (Except.error e : Except ThrownError α)).2.state = CBState.«open»
        ∧ (CircuitBreaker.execute o c b now (Except.error e : Except ThrownError α)).2.openedAtMs = now))
    ∧ ((CircuitBreaker.execute o c b now op).2.consecutiveFailures = 0 →
        b.consecutiveFailures = 0 ∨ ∃ w : α, op = Except.ok w) := by
  refine ⟨rfl, ?_, ?_, ?_, ?_, ?_⟩
  · intro hc
    have hchk := checkOpen_of_not_open o b now (by simp [hc])
    refine ⟨?_, ?_, ?_⟩
    · simp [CircuitBreaker.execute, hchk, onFailure_consecutiveFailures]
    · intro hth
      simp only [CircuitBreaker.execute, hchk]
      unfold CircuitBreaker.onFailure
      simp [ge_iff_le, hth]
    · intro hth
      simp only [CircuitBreaker.execute, hchk]
      unfold CircuitBreaker.onFailure
      simp [ge_iff_le, not_le.mpr hth, hc]
  · intro ho hel
    simp [CircuitBreaker.execute, checkOpen_open_fresh o b now ho hel]
  · intro ho hel
    have hchk := checkOpen_open_stale o b now ho hel
    refine ⟨?_, ?_, ?_, ?_⟩
    · simp [CircuitBreaker.execute, hchk, CircuitBreaker.onSuccess]
    · simp [CircuitBreaker.execute, hchk]
    · simp only [CircuitBreaker.execute, hchk]
      exact (onFailure_half_open o { b with state := CBState.half_open } now rfl).1
    · simp only [CircuitBreaker.execute, hchk]
      exact (onFailure_half_open o { b with state := CBState.half_open } now rfl).2
  · intro hh
    have hchk := checkOpen_of_not_open o b now (by simp [hh])
    refine ⟨?_, ?_, ?_⟩
    · simp [CircuitBreaker.execute, hchk, CircuitBreaker.onSuccess]
    · simp only [CircuitBreaker.execute, hchk]
      exact (onFailure_half_open o b now hh).1
    · simp only [CircuitBreaker.execute, hchk]
      exact (onFailure_half_open o b now hh).2
  · intro h0
    unfold CircuitBreaker.execute at h0
    cases hchk : CircuitBreaker.checkOpen o b now with
    | none =>
      rw [hchk] at h0
      exact Or.inl h0
    | some b1 =>
      rw [hchk] at h0
      have hb1 : b1.consecutiveFailures = b.consecutiveFailures := by
        unfold CircuitBreaker.checkOpen at hchk
        by_cases ho : b.state = CBState.«open»
        · by_cases hel : now - b.openedAtMs < o.openDurationMs
          · simp [ho, hel] at hchk
          · simp only [ho, if_true, hel, if_false] at hchk
            cases hchk
            rfl
        · simp only [ho, if_false] at hchk
          cases hchk
          rfl
      cases op with
      | ok w => exact Or.inr ⟨w, rfl⟩
      | error e2 =>
        simp only [onFailure_consecutiveFailures] at h0
        exact absurd (hb1 ▸ h0) (Nat.succ_ne_zero _)

/-- C3 witness: with `failureThreshold = 2, openDurationMs = 5000`, a call at
1000ms into the open window fast-fails with `CircuitOpenError` and leaves the
state untouched. -/
theorem C3_circuit_breaker_state_machine_witness :
    CircuitBreaker.execute { failureThreshold := 2, openDurationMs := 5000 } "UPS"
        { state := CBState.«open», consecutiveFailures := 2, openedAtMs := 0 } 1000
        (Except.ok (42 : Nat)) =
      (CBOutcome.fastFail (mkCircuitOpenError "Circuit breaker is open" "UPS"),
       { state := CBState.«open», consecutiveFailures := 2, openedAtMs := 0 }) :=
  (C3_circuit_breaker_state_machine { failureThreshold := 2, openDurationMs := 5000 }
      "UPS" { state := CBState.«open», consecutiveFailures := 2, openedAtMs := 0 } 1000
      (ThrownError.plain "boom") 42 (Except.ok 42)).2.2.1 rfl (by decide)

/-! ### Jitter helper lemmas -/

theorem applyJitter_bounds (d j r : ℚ) (hd : 0 ≤ d) (hj : 0 ≤ j)
    (hr0 : 0 ≤ r) (hr1 : r < 1) :
    0 ≤ applyJitter d j r
    ∧ ⌊d * (1 - j)⌋ ≤ applyJitter d j r
    ∧ (applyJitter d j r : ℚ) ≤ d * (1 + j) := by
  have hrw : applyJitter d j r
      = max 0 ⌊(d - d * j) + r * ((d + d * j) - (d - d * j))⌋ := rfl
  have hdj : 0 ≤ d * j := mul_nonneg hd hj
  have hterm : 0 ≤ r * ((d + d * j) - (d - d * j)) := by nlinarith
  have hy : (d - d * j) + r * ((d + d * j) - (d - d * j)) ≤ d * (1 + j) := by
    nlinarith
  refine ⟨?_, ?_, ?_⟩
  · rw [hrw]; exact le_max_left 0 _
  · rw [hrw]
    have h1 : d * (1 - j) = d - d * j := by ring
    have h2 : ⌊d - d * j⌋ ≤ ⌊(d - d * j) + r * ((d + d * j) - (d - d * j))⌋ :=
      Int.floor_mono (by linarith)
    rw [h1]
    exact le_trans h2 (le_max_right 0 _)
  · rw [hrw]
    have hcast : ((max 0 ⌊(d - d * j) + r * ((d + d * j) - (d - d * j))⌋ : ℤ) : ℚ)
        = max 0 ((⌊(d - d * j) + r * ((d + d * j) - (d - d * j))⌋ : ℤ) : ℚ) := by
      push_cast
      rfl
    rw [hcast]
    refine max_le ?_ ?_
    · nlinarith
    · exact le_trans (le_trans (Int.floor_le _) hy) (le_refl _)

theorem applyJitter_no_jitter (m : ℕ) (r : ℚ) :
    applyJitter (m : ℚ) 0 r = (m : ℤ) := by
  have hrw : applyJitter (m : ℚ) 0 r
      = max 0 ⌊((m : ℚ) - (m : ℚ) * 0) + r * (((m : ℚ) + (m : ℚ) * 0) - ((m : ℚ) - (m : ℚ) * 0))⌋ := rfl
  rw [hrw]
  have hy : ((m : ℚ) - (m : ℚ) * 0) + r * (((m : ℚ) + (m : ℚ) * 0) - ((m : ℚ) - (m : ℚ) * 0))
      = (m : ℚ) := by ring
  rw [hy, Int.floor_natCast]
  exact max_eq_right (Int.ofNat_nonneg m)

/-- C6: `shouldRetry(error, attempt)` holds exactly when
`attempt < maxAttempts` and the error is a retryable `ServiceError`; and for
every attempt `n ≥ 1` and random draw `r ∈ [0,1)`, `getDelayMs(n)` is a
non-negative integer within
`[⌊d*(1-jitterRatio)⌋, d*(1+jitterRatio)]` for
`d = min(baseDelayMs * 2^(n-1), maxDelayMs)`, and equals exactly `d` when
`jitterRatio = 0`. -/
theorem C6_exponential_backoff_policy (o : ExponentialBackoffOptions)
    (e : ThrownError) (a n : Nat) (r : ℚ) (bBase bMax : ℕ)
    (hbase : o.baseDelayMs = (bBase : ℚ)) (hmax : o.maxDelayMs = (bMax : ℚ))
    (_hn : 1 ≤ n) (hj : 0 ≤ o.jitterFrac) (hr0 : 0 ≤ r) (hr1 : r < 1) :
    (o.shouldRetry e a = true ↔
      (a < o.maxAttempts ∧ ∃ s, e = ThrownError.service s ∧ s.retryable = true))
    ∧ 0 ≤ o.getDelayMs n r
    ∧ ⌊min (o.baseDelayMs * 2 ^ (n - 1)) o.maxDelayMs * (1 - o.jitterFrac)⌋
        ≤ o.getDelayMs n r
    ∧ (o.getDelayMs n r : ℚ)
        ≤ min (o.baseDelayMs * 2 ^ (n - 1)) o.maxDelayMs * (1 + o.jitterFrac)
    ∧ (o.jitterFrac = 0 →
        (o.getDelayMs n r : ℚ) = min (o.baseDelayMs * 2 ^ (n - 1)) o.maxDelayMs) := by
  have hdnn : 0 ≤ min (o.baseDelayMs * 2 ^ (n - 1)) o.maxDelayMs := by
    rw [hbase, hmax]
    refine le_min (mul_nonneg (Nat.cast_nonneg bBase) (by positivity)) (Nat.cast_nonneg bMax)
  have hdelay : o.getDelayMs n r
      = applyJitter (min (o.baseDelayMs * 2 ^ (n - 1)) o.maxDelayMs) o.jitterFrac r := rfl
  obtain ⟨hb0, hbl, hbu⟩ :=
    applyJitter_bounds (min (o.baseDelayMs * 2 ^ (n - 1)) o.maxDelayMs) o.jitterFrac r
      hdnn hj hr0 hr1
  refine ⟨?_, by rw [hdelay]; exact hb0, by rw [hdelay]; exact hbl,
    by rw [hdelay]; exact hbu, ?_⟩
  · constructor
    · intro h
      unfold ExponentialBackoffOptions.shouldRetry at h
      by_cases ha : a ≥ o.maxAttempts
      · simp [ha] at h
      · refine ⟨lt_of_not_ge ha, ?_⟩
        cases e with
        | service s =>
          simp only [ha, if_false] at h
          exact ⟨s, rfl, h⟩
        | plain m => simp [ha] at h
    · rintro ⟨hlt, s, rfl, hs⟩
      unfold ExponentialBackoffOptions.shouldRetry
      simp [not_le.mpr hlt, hs]
  · intro hj0
    have hnatmul : o.baseDelayMs * 2 ^ (n - 1) = ((bBase * 2 ^ (n - 1) : ℕ) : ℚ) := by
      rw [hbase]; push_cast; ring
    have hdn : min (o.baseDelayMs * 2 ^ (n - 1)) o.maxDelayMs
        = ((min (bBase * 2 ^ (n - 1)) bMax : ℕ) : ℚ) := by
      rw [hnatmul, hmax, Nat.cast_min]
    rw [hdelay, hj0, hdn, applyJitter_no_jitter]
    push_cast
    rfl

/-- C6 witness: the `registerUpsRateCarrier` defaults with `jitterRatio`
zeroed out give `getDelayMs(2) = min(200*2, 2000) = 400` exactly, and a
retryable `ServiceError` at attempt 1 of 3 is retried. -/
theorem C6_exponential_backoff_policy_witness :
    ({ maxAttempts := 3, baseDelayMs := 200, maxDelayMs := 2000, jitterFrac := 0 }
        : ExponentialBackoffOptions).shouldRetry
      (ThrownError.service (mkRateLimitError "slow down" (some "UPS"))) 1 = true := by
  have h :=
    (C6_exponential_backoff_policy
      { maxAttempts := 3, baseDelayMs := 200, maxDelayMs := 2000, jitterFrac := 0 }
      (ThrownError.service (mkRateLimitError "slow down" (some "UPS"))) 1 2 0 200 2000
      (by norm_num) (by norm_num) (by norm_num) (by norm_num) (by norm_num) (by norm_num)).1
  exact h.mpr ⟨by norm_num, mkRateLimitError "slow down" (some "UPS"), rfl, rfl⟩

/-! ### Retry executor helper lemmas and test stubs -/

deriving instance DecidableEq for RetryRun

/-- Any error `withRetryAux` settles with is literally one the operation
returned, at an attempt the policy declined to retry. -/
theorem withRetryAux_error_from_op {α : Type} (policy : RetryPolicyM)
    (op : Nat → Except ThrownError α) :
    ∀ (fuel attempt : Nat) (sleeps : List ℤ) (run : RetryRun α),
      withRetryAux policy op fuel attempt sleeps = some run →
      ∀ e : ThrownError, run.result = Except.error e →
        ∃ k, attempt ≤ k ∧ op k = Except.error e ∧ policy.shouldRetry e k = false := by
  intro fuel
  induction fuel with
  | zero =>
    intro attempt sleeps run h
    simp [withRetryAux] at h
  | succ fuel ih =>
    intro attempt sleeps run h e hres
    unfold withRetryAux at h
    cases hop : op attempt with
    | ok v =>
      rw [hop] at h
      cases Option.some.inj h
      simp at hres
    | error e2 =>
      rw [hop] at h
      dsimp only at h
      by_cases hsr : policy.shouldRetry e2 attempt = true
      · rw [if_pos hsr] at h
        obtain ⟨k, hk, hopk, hdeny⟩ := ih (attempt + 1) _ run h e hres
        exact ⟨k, by omega, hopk, hdeny⟩
      · rw [if_neg hsr] at h
        cases Option.some.inj h
        have he : e2 = e := by
          simpa using hres
        subst he
        exact ⟨attempt, le_refl _, hop, Bool.not_eq_true _ ▸ eq_false_of_ne_true hsr⟩

/-- A retryable `ServiceError` stub (a 5xx carrier error). -/
def retryableStubError : ServiceError :=
  mkCarrierError ErrorCode.API_ERROR "upstream 500" "UPS" (some true)

/-- A non-retryable `ServiceError` stub. -/
def nonRetryableStubError : ServiceError := mkValidationError "bad request"

/-- The spec scenario policy: `maxAttempts = 3, baseDelayMs = 0,
jitterRatio = 0` (maxDelayMs 0; all draws 0). -/
def policy3 : RetryPolicyM :=
  ({ maxAttempts := 3, baseDelayMs := 0, maxDelayMs := 0, jitterFrac := 0 }
      : ExponentialBackoffOptions).toPolicy (fun _ => 0)

/-- An operation failing retryably on attempts 1 and 2 and succeeding on 3. -/
def opFailTwice : Nat → Except ThrownError Nat := fun attempt =>
  if attempt ≤ 2 then Except.error (ThrownError.service retryableStubError)
  else Except.ok 42

/-- An operation always failing with a non-retryable error. -/
def opNonRetryable : Nat → Except ThrownError Nat := fun _ =>
  Except.error (ThrownError.service nonRetryableStubError)

/-- C7: `withRetry` runs the operation until the policy denies a retry and
then propagates the operation's own error value unchanged; under
`maxAttempts = 3, baseDelayMs = 0, jitterRatio = 0`, an operation failing
twice retryably then succeeding settles successfully after exactly 3
invocations, and a non-retryably failing operation is invoked exactly
once. -/
theorem C7_with_retry_executor (α : Type) (policy : RetryPolicyM)
    (op : Nat → Except ThrownError α) (run : RetryRun α) (e : ThrownError)
    (hrun : withRetry policy op = some run)
    (hres : run.result = Except.error e) :
    (∃ k, 1 ≤ k ∧ op k = Except.error e ∧ policy.shouldRetry e k = false)
    ∧ withRetry policy3 opFailTwice =
        some { result := Except.ok 42, invocations := 3, sleeps := [0, 0] }
    ∧ withRetry policy3 opNonRetryable =
        some { result := Except.error (ThrownError.service nonRetryableStubError)
               invocations := 1
               sleeps := [] } := by
  refine ⟨withRetryAux_error_from_op policy op _ 1 [] run hrun e hres, ?_, ?_⟩
  · norm_num [withRetry, withRetryAux, policy3, opFailTwice,
      ExponentialBackoffOptions.toPolicy, ExponentialBackoffOptions.shouldRetry,
      ExponentialBackoffOptions.getDelayMs, applyJitter, retryableStubError,
      mkCarrierError]
  · norm_num [withRetry, withRetryAux, policy3, opNonRetryable,
      ExponentialBackoffOptions.toPolicy, ExponentialBackoffOptions.shouldRetry,
      ExponentialBackoffOptions.getDelayMs, applyJitter, nonRetryableStubError,
      mkValidationError]

/-- C7 witness: the non-retryable scenario instantiates the propagation
property — the settled error is the stub error the operation returned at
attempt 1, which the policy declined to retry. -/
theorem C7_with_retry_executor_witness :
    ∃ k, 1 ≤ k
      ∧ opNonRetryable k = Except.error (ThrownError.service nonRetryableStubError)
      ∧ policy3.shouldRetry (ThrownError.service nonRetryableStubError) k = false :=
  (C7_with_retry_executor Nat policy3 opNonRetryable
    { result := Except.error (ThrownError.service nonRetryableStubError)
      invocations := 1
      sleeps := [] }
    (ThrownError.service nonRetryableStubError) (by decide) rfl).1

/-- C5: `getAuthorizationHeader` answers from the cache, with no
token-endpoint call and no state change, exactly when a cached token exists
and `now + REFRESH_BUFFER_MS < expiresAtMs` (buffer 60000); a refresh stores
`expiresAtMs = now + expiresInSeconds*1000 − REFRESH_BUFFER_MS` with
`expiresInSeconds` defaulting to 3600 when `expires_in` is absent; and a
token acquired with `expiresInSeconds = 1` never passes the usability check
at any later time, so the next call (with no refresh in flight) starts a
fresh token-endpoint call. -/
theorem C5_cache_usability_and_expiry (s : AuthProviderState) (now : ℤ)
    (tok : OAuthToken) (status : Nat) (body : Option TokenResponseBody) :
    REFRESH_BUFFER_MS = 60000
    ∧ ((∃ h s', getAuthorizationHeaderStep s now = (AuthCallOutcome.cacheHit h, s'))
        ↔ ∃ c, s.cached = some c ∧ now + REFRESH_BUFFER_MS < c.expiresAtMs)
    ∧ (∀ h s', getAuthorizationHeaderStep s now = (AuthCallOutcome.cacheHit h, s') →
        s' = s ∧ ∃ c, s.cached = some c ∧ h = "Bearer " ++ c.accessToken)
    ∧ ((settleRefresh s now (Except.ok tok)).2.cached =
        some { accessToken := tok.accessToken
               expiresAtMs := now + tok.expiresInSeconds * 1000 - REFRESH_BUFFER_MS })
    ∧ (∀ b : TokenResponseBody, 200 ≤ status → status < 300 → body = some b →
        tokenResponseValid b = true →
        OAuthClient.acquireToken status body =
          Except.ok { accessToken := b.access_token
                      expiresInSeconds := (b.expires_in).getD 3600 })
    ∧ (∀ t0 later : ℤ, tok.expiresInSeconds = 1 → t0 ≤ later →
        cacheUsable (settleRefresh s t0 (Except.ok tok)).2.cached later = false)
    ∧ (∀ s2 : AuthProviderState, cacheUsable s2.cached now = false →
        s2.refreshing = none →
        (getAuthorizationHeaderStep s2 now).2.endpointCalls = s2.endpointCalls + 1) := by
  have husable : ∀ (s3 : AuthProviderState) (c : CachedToken), s3.cached = some c →
      now + REFRESH_BUFFER_MS < c.expiresAtMs →
      getAuthorizationHeaderStep s3 now
        = (AuthCallOutcome.cacheHit ("Bearer " ++ c.accessToken), s3) := by
    intro s3 c hc hlt
    unfold getAuthorizationHeaderStep
    have hu : cacheUsable s3.cached now = true := by
      rw [hc]
      simp [cacheUsable, hlt]
    rw [if_pos hu, hc]
  have hnotusable : ∀ s3 : AuthProviderState, cacheUsable s3.cached now = false →
      ∀ h s', getAuthorizationHeaderStep s3 now ≠ (AuthCallOutcome.cacheHit h, s') := by
    intro s3 hu h s' hstep
    unfold getAuthorizationHeaderStep at hstep
    rw [if_neg (by simp [hu])] at hstep
    cases hr : s3.refreshing with
    | none => rw [hr] at hstep; cases hstep
    | some p => rw [hr] at hstep; cases hstep
  refine ⟨rfl, ⟨?_, ?_⟩, ?_, rfl, ?_, ?_, ?_⟩
  · rintro ⟨h, s', hstep⟩
    by_cases hu : cacheUsable s.cached now = true
    · cases hc : s.cached with
      | none => rw [hc] at hu; simp [cacheUsable] at hu
      | some c =>
        rw [hc] at hu
        simp only [cacheUsable, decide_eq_true_eq] at hu
        exact ⟨c, rfl, hu⟩
    · exact absurd hstep (hnotusable s (Bool.eq_false_iff.mpr hu) h s')
  · rintro ⟨c, hc, hlt⟩
    exact ⟨"Bearer " ++ c.accessToken, s, husable s c hc hlt⟩
  · intro h s' hstep
    by_cases hu : cacheUsable s.cached now = true
    · cases hc : s.cached with
      | none => rw [hc] at hu; simp [cacheUsable] at hu
      | some c =>
        rw [hc] at hu
        simp only [cacheUsable, decide_eq_true_eq] at hu
        have hpair := (husable s c hc hu).symm.trans hstep
        have hs' : s' = s := (congrArg Prod.snd hpair).symm
        have hh : h = "Bearer " ++ c.accessToken := by
          have hfst := congrArg Prod.fst hpair
          simpa using hfst.symm
        exact ⟨hs', c, hc ▸ rfl, hh⟩
    · exact absurd hstep (hnotusable s (Bool.eq_false_iff.mpr hu) h s')
  · intro b h200 h300 hbody hvalid
    unfold OAuthClient.acquireToken
    rw [hbody, if_neg (by omega)]
    simp [hvalid]
  · intro t0 later hexp hle
    simp only [settleRefresh]
    simp only [cacheUsable, hexp, REFRESH_BUFFER_MS, decide_eq_false_iff_not, not_lt]
    omega
  · intro s2 hu hr
    unfold getAuthorizationHeaderStep
    rw [if_neg (by simp [hu]), hr]

/-- C5 witness: a cached token good until t = 1000000 at `now = 0` is
returned without any refresh. -/
theorem C5_cache_usability_and_expiry_witness :
    ∃ h s', getAuthorizationHeaderStep
        { cached := some { accessToken := "tok", expiresAtMs := 1000000 }
          refreshing := none, nextPromiseId := 0, endpointCalls := 0 } 0 =
      (AuthCallOutcome.cacheHit h, s') :=
  ((C5_cache_usability_and_expiry
      { cached := some { accessToken := "tok", expiresAtMs := 1000000 }
        refreshing := none, nextPromiseId := 0, endpointCalls := 0 } 0
      { accessToken := "t", expiresInSeconds := 3600 } 200 none).2.1).mpr
    ⟨{ accessToken := "tok", expiresAtMs := 1000000 }, rfl, by norm_num [REFRESH_BUFFER_MS]⟩

/-- While a refresh is in flight and the cache is unusable, every further
caller's synchronous prefix joins that same promise and leaves the state
untouched. -/
theorem runCallers_join_in_flight (now : ℤ) (s : AuthProviderState) (p : Nat)
    (hu : cacheUsable s.cached now = false) (hr : s.refreshing = some p) :
    ∀ n : Nat, runCallers now s n = (List.replicate n (AuthCallOutcome.awaits p), s) := by
  intro n
  induction n with
  | zero => rfl
  | succ n ih =>
    have hstep : getAuthorizationHeaderStep s now = (AuthCallOutcome.awaits p, s) := by
      unfold getAuthorizationHeaderStep
      rw [if_neg (by simp [hu]), hr]
    unfold runCallers
    rw [hstep]
    dsimp only
    rw [ih, List.replicate_succ]

/-- C4: `n ≥ 1` concurrent `getAuthorizationHeader()` callers arriving while
no usable cached token exists and no refresh is in flight start exactly one
token-endpoint call; every caller awaits the same refresh promise, so a
successful settlement resolves them all to the same bearer header; and the
in-flight marker is cleared on settlement whether the refresh succeeds or
fails. -/
theorem C4_single_flight_refresh (s : AuthProviderState) (now : ℤ) (n : Nat)
    (hn : 1 ≤ n) (hu : cacheUsable s.cached now = false)
    (hr : s.refreshing = none) :
    (runCallers now s n).2.endpointCalls = s.endpointCalls + 1
    ∧ (∀ o ∈ (runCallers now s n).1, o = AuthCallOutcome.awaits s.nextPromiseId)
    ∧ (runCallers now s n).1.length = n
    ∧ (∀ tok : OAuthToken,
        (settleRefresh (runCallers now s n).2 now (Except.ok tok)).1
            = Except.ok ("Bearer " ++ tok.accessToken)
        ∧ (settleRefresh (runCallers now s n).2 now (Except.ok tok)).2.refreshing = none)
    ∧ (∀ e : ServiceError,
        (settleRefresh (runCallers now s n).2 now (Except.error e)).2.refreshing = none) := by
  obtain ⟨m, rfl⟩ : ∃ m, n = m + 1 := ⟨n - 1, by omega⟩
  have hstep : getAuthorizationHeaderStep s now =
      (AuthCallOutcome.awaits s.nextPromiseId,
       { s with refreshing := some s.nextPromiseId
                nextPromiseId := s.nextPromiseId + 1
                endpointCalls := s.endpointCalls + 1 }) := by
    unfold getAuthorizationHeaderStep
    rw [if_neg (by simp [hu]), hr]
  have hrest := runCallers_join_in_flight now
      { s with refreshing := some s.nextPromiseId
               nextPromiseId := s.nextPromiseId + 1
               endpointCalls := s.endpointCalls + 1 } s.nextPromiseId hu rfl m
  have hrun : runCallers now s (m + 1) =
      (AuthCallOutcome.awaits s.nextPromiseId ::
         List.replicate m (AuthCallOutcome.awaits s.nextPromiseId),
       { s with refreshing := some s.nextPromiseId
                nextPromiseId := s.nextPromiseId + 1
                endpointCalls := s.endpointCalls + 1 }) := by
    unfold runCallers
    rw [hstep]
    dsimp only
    rw [hrest]
  rw [hrun]
  refine ⟨rfl, ?_, by simp, fun tok => ⟨rfl, rfl⟩, fun e => rfl⟩
  intro o ho
  rcases List.mem_cons.mp ho with h | h
  · exact h
  · exact List.eq_of_mem_replicate h

/-- C4 witness: three simultaneous callers on a fresh provider make exactly
one token-endpoint call. -/
theorem C4_single_flight_refresh_witness :
    (runCallers 0 AuthProviderState.initial 3).2.endpointCalls
      = AuthProviderState.initial.endpointCalls + 1 :=
  (C4_single_flight_refresh AuthProviderState.initial 0 3 (by norm_num) rfl rfl).1

/-- A sequential `getAuthorizationHeader()` with no usable cache and no
refresh in flight performs exactly one token-endpoint call and resolves to
the freshly acquired bearer header. -/
theorem getAuthRun_refresh (s : AuthProviderState) (now : ℤ)
    (tokens : Nat → OAuthToken) (hr : s.refreshing = none)
    (hu : cacheUsable s.cached now = false) :
    getAuthorizationHeaderRun s now (fun j => Except.ok (tokens j))
      = (Except.ok ("Bearer " ++ (tokens s.endpointCalls).accessToken),
         { cached := some { accessToken := (tokens s.endpointCalls).accessToken
                            expiresAtMs := now + (tokens s.endpointCalls).expiresInSeconds * 1000
                              - REFRESH_BUFFER_MS }
           refreshing := none
           nextPromiseId := s.nextPromiseId + 1
           endpointCalls := s.endpointCalls + 1 }) := by
  have hstep : getAuthorizationHeaderStep s now =
      (AuthCallOutcome.awaits s.nextPromiseId,
       { s with refreshing := some s.nextPromiseId
                nextPromiseId := s.nextPromiseId + 1
                endpointCalls := s.endpointCalls + 1 }) := by
    unfold getAuthorizationHeaderStep
    rw [if_neg (by simp [hu]), hr]
  unfold getAuthorizationHeaderRun
  rw [hstep]
  rfl

/-- A sequential `getAuthorizationHeader()` whose acquisitions always succeed
resolves to some bearer header and leaves no refresh in flight. -/
theorem getAuthRun_ok (s : AuthProviderState) (now : ℤ)
    (tokens : Nat → OAuthToken) (hr : s.refreshing = none) :
    ∃ h s1, getAuthorizationHeaderRun s now (fun j => Except.ok (tokens j))
        = (Except.ok h, s1) ∧ s1.refreshing = none := by
  by_cases hu : cacheUsable s.cached now = true
  · cases hc : s.cached with
    | none => rw [hc] at hu; simp [cacheUsable] at hu
    | some c =>
      refine ⟨"Bearer " ++ c.accessToken, s, ?_, hr⟩
      unfold getAuthorizationHeaderRun
      have hstep : getAuthorizationHeaderStep s now
          = (AuthCallOutcome.cacheHit ("Bearer " ++ c.accessToken), s) := by
        unfold getAuthorizationHeaderStep
        rw [if_pos hu, hc]
      rw [hstep]
  · exact ⟨_, _, getAuthRun_refresh s now tokens hr (Bool.eq_false_iff.mpr hu), rfl⟩

/-- C2 (amended): a first rate attempt answered 401/403 invalidates the
cached token exactly once and retries exactly once with a freshly fetched
bearer header (one new token-endpoint call); a second 401/403 fails the call
with `AuthError(AUTH_TOKEN_INVALID)` — whose `retryable` flag the source
sets to `true` (`retryable: code !== AUTH_FAILED`), not `false` as
specified. -/
theorem C2_forced_refresh_retry (s0 : AuthProviderState) (now : ℤ)
    (tokens : Nat → OAuthToken) (transport : Nat → HttpResponse)
    (hr0 : s0.refreshing = none)
    (h401 : (transport 0).status = 401 ∨ (transport 0).status = 403) :
    ∃ h1 k,
      (UpsRateClient.send s0 now (fun j => Except.ok (tokens j)) transport).invalidations = 1
      ∧ (UpsRateClient.send s0 now (fun j => Except.ok (tokens j)) transport).rateCallHeaders
          = [h1, "Bearer " ++ (tokens k).accessToken]
      ∧ (UpsRateClient.send s0 now (fun j => Except.ok (tokens j)) transport).auth.endpointCalls
          = k + 1
      ∧ (((transport 1).status = 401 ∨ (transport 1).status = 403) →
          (UpsRateClient.send s0 now (fun j => Except.ok (tokens j)) transport).result
            = Except.error (mkAuthError ErrorCode.AUTH_TOKEN_INVALID
                "Authentication token invalid or expired" (some "UPS")))
      ∧ (¬ ((transport 1).status = 401 ∨ (transport 1).status = 403) →
          (UpsRateClient.send s0 now (fun j => Except.ok (tokens j)) transport).result
            = Except.ok (transport 1))
      ∧ (mkAuthError ErrorCode.AUTH_TOKEN_INVALID
          "Authentication token invalid or expired" (some "UPS")).retryable = true := by
  obtain ⟨h1, s1, hrun1, hr1⟩ := getAuthRun_ok s0 now tokens hr0
  have hu2 : cacheUsable (s1.invalidate).cached now = false := rfl
  have hr2 : (s1.invalidate).refreshing = none := hr1
  have hrun2 := getAuthRun_refresh (s1.invalidate) now tokens hr2 hu2
  refine ⟨h1, (s1.invalidate).endpointCalls, ?_⟩
  unfold UpsRateClient.send
  rw [hrun1]
  dsimp only
  rw [if_pos h401, hrun2]
  dsimp only
  by_cases h2 : (transport 1).status = 401 ∨ (transport 1).status = 403
  · rw [if_pos h2]
    exact ⟨rfl, rfl, rfl, fun _ => rfl, fun hne => absurd h2 hne, rfl⟩
  · rw [if_neg h2]
    exact ⟨rfl, rfl, rfl, fun hyes => absurd hyes h2, fun _ => rfl, rfl⟩

/-- C2 witness: a fresh provider, both rate attempts 401, all token
acquisitions succeeding. -/
theorem C2_forced_refresh_retry_witness :
    ∃ h1 k,
      (UpsRateClient.send AuthProviderState.initial 0
          (fun _ => Except.ok ({ accessToken := "tok", expiresInSeconds := 3600 }
            : OAuthToken))
          (fun _ => { status := 401, bodyText := "Unauthorized" })).invalidations = 1
      ∧ (UpsRateClient.send AuthProviderState.initial 0
          (fun _ => Except.ok ({ accessToken := "tok", expiresInSeconds := 3600 }
            : OAuthToken))
          (fun _ => { status := 401, bodyText := "Unauthorized" })).rateCallHeaders
          = [h1, "Bearer " ++ ((fun _ : Nat =>
              ({ accessToken := "tok", expiresInSeconds := 3600 } : OAuthToken)) k).accessToken]
      ∧ (UpsRateClient.send AuthProviderState.initial 0
          (fun _ => Except.ok ({ accessToken := "tok", expiresInSeconds := 3600 }
            : OAuthToken))
          (fun _ => { status := 401, bodyText := "Unauthorized" })).auth.endpointCalls
          = k + 1 := by
  obtain ⟨h1, k, hinv, hhdr, hcalls, -, -, -⟩ :=
    C2_forced_refresh_retry AuthProviderState.initial 0
      (fun _ => ({ accessToken := "tok", expiresInSeconds := 3600 } : OAuthToken))
      (fun _ => { status := 401, bodyText := "Unauthorized" })
      rfl (Or.inl rfl)
  exact ⟨h1, k, hinv, hhdr, hcalls⟩

/-- C2 counterexample to the claim as stated: with both attempts answered
401, the call fails with `AuthError(AUTH_TOKEN_INVALID)` whose `retryable`
flag is `true`, not `false`. -/
theorem C2_retryable_flag_counterexample :
    (UpsRateClient.send AuthProviderState.initial 0
        (fun _ => Except.ok ({ accessToken := "tok", expiresInSeconds := 3600 }
          : OAuthToken))
        (fun _ => { status := 401, bodyText := "Unauthorized" })).result
      = Except.error (mkAuthError ErrorCode.AUTH_TOKEN_INVALID
          "Authentication token invalid or expired" (some "UPS"))
    ∧ (mkAuthError ErrorCode.AUTH_TOKEN_INVALID
        "Authentication token invalid or expired" (some "UPS")).retryable = true := by
  constructor
  · rfl
  · rfl

/-- C1 (amended): `registerUpsRateCarrier` composes the decorators with the
circuit breaker outermost (`CircuitBreakerCarrierClient` wrapping
`RetryingCarrierClient` wrapping the raw 401-aware transport send), so every
call made while the breaker is open and within `openDurationMs` fails fast
with the (retryable) `CircuitOpenError` after that single fast-fail: the
`RetryPolicy` is never consulted and the transport is never invoked — the
fast-fail is not retried with backoff. -/
theorem C1_breaker_wraps_retry {α : Type} (cbo : CircuitBreakerOptions)
    (policy : RetryPolicyM) (carrier : String) (b : CircuitBreaker) (now : ℤ)
    (opAttempt : Nat → Except ThrownError α)
    (ho : b.state = CBState.«open»)
    (hel : now - b.openedAtMs < cbo.openDurationMs) :
    composedSend cbo policy carrier b now opAttempt
      = some ({ result := Except.error (ThrownError.service
                  (mkCircuitOpenError "Circuit breaker is open" carrier))
                invocations := 0
                sleeps := [] }, b)
    ∧ (mkCircuitOpenError "Circuit breaker is open" carrier).retryable = true := by
  unfold composedSend
  rw [checkOpen_open_fresh cbo b now ho hel]
  exact ⟨rfl, rfl⟩

/-- C1 witness: the `registerUpsRateCarrier` default breaker (threshold 5,
open 30000ms), open since t = 0, consulted at t = 1000. -/
theorem C1_breaker_wraps_retry_witness :
    composedSend registerDefaultBreakerOptions
        (registerDefaultRetryOptions.toPolicy (fun _ => 0)) "UPS"
        { state := CBState.«open», consecutiveFailures := 5, openedAtMs := 0 } 1000
        (fun _ => (Except.error (ThrownError.service retryableStubError)
          : Except ThrownError Nat))
      = some ({ result := Except.error (ThrownError.service
                  (mkCircuitOpenError "Circuit breaker is open" "UPS"))
                invocations := 0
                sleeps := [] },
              { state := CBState.«open», consecutiveFailures := 5, openedAtMs := 0 }) :=
  (C1_breaker_wraps_retry registerDefaultBreakerOptions
    (registerDefaultRetryOptions.toPolicy (fun _ => 0)) "UPS"
    { state := CBState.«open», consecutiveFailures := 5, openedAtMs := 0 } 1000
    (fun _ => (Except.error (ThrownError.service retryableStubError)
      : Except ThrownError Nat))
    rfl (by norm_num [registerDefaultBreakerOptions])).1

/-- C1 counterexample to the claim as stated: with the
`registerUpsRateCarrier` defaults (`maxAttempts = 3` and a retryable
transport error available), a call made while the breaker is open and within
`openDurationMs` settles as the `CircuitOpenError` with zero transport
invocations and zero backoff sleeps — the composed send propagates the
fast-fail after a single occurrence instead of retrying it up to
`maxAttempts`. -/
theorem C1_retry_order_counterexample :
    composedSend registerDefaultBreakerOptions
        (registerDefaultRetryOptions.toPolicy (fun _ => 0)) "UPS"
        { state := CBState.«open», consecutiveFailures := 5, openedAtMs := 0 } 1000
        (fun _ => (Except.error (ThrownError.service
          (mkCarrierError ErrorCode.API_ERROR "upstream 500" "UPS" (some true)))
          : Except ThrownError Nat))
      = some ({ result := Except.error (ThrownError.service
                  (mkCircuitOpenError "Circuit breaker is open" "UPS"))
                invocations := 0
                sleeps := [] },
              { state := CBState.«open», consecutiveFailures := 5, openedAtMs := 0 })
    ∧ (registerDefaultRetryOptions.toPolicy (fun _ => 0)).maxAttempts = 3
    ∧ (registerDefaultRetryOptions.toPolicy (fun _ => 0)).shouldRetry
        (ThrownError.service (mkCircuitOpenError "Circuit breaker is open" "UPS")) 1
        = true := by
  refine ⟨rfl, rfl, rfl⟩

end Cybership
